import Mathlib

/-!
Shallow embedding of the linkinthe.video analysis pipeline.

The embedding follows `src/backend/pipeline/steps.py` (stage functions and
runner), `src/backend/pipeline/adapters.py` (provider doubles),
`src/backend/pipeline/client.py` (persistence and status transitions) and
`src/backend/video/models.py` (durable rows).

Python candidate dictionaries are modelled as a record of the recognized
fields; a field holding `Option` distinguishes an absent key (`none`) from a
present value, matching `dict.get` defaulting.  Python float confidences are
modelled as rationals (the code only compares them against decimal literals).
-/

namespace LinkInTheVideo

/-- Truthiness of `dict.get(key)` for an optional string field: Python treats
both a missing key (`None`) and the empty string as falsy. -/
def optTruthy : Option String → Bool
  | some s => s != ""
  | none => false

/-- An in-flight candidate dictionary (the recognized keys used by
`pipeline/steps.py`).  `none` models an absent key. -/
structure Candidate where
  name : Option String := none
  timestamp : Option String := none
  asin : Option String := none
  sources : List String := []
  confidence : Option ℚ := none
  image_url : Option String := none
  product_url : Option String := none
deriving Repr, DecidableEq

/-- A finalized result dictionary as assembled by `build_result`
(`steps.py` lines 240-246): the keys `name`, `timestamp`, `asin`, `sources`,
`image_url` are always set (with defaults for missing candidate keys). -/
structure ResultItem where
  name : String
  timestamp : String
  asin : Option String
  sources : List String
  image_url : Option String
deriving Repr, DecidableEq

/-- The `result_item` construction of `build_result`:
`item.get("name", "Unknown")`, `item.get("timestamp", "")`,
`item.get("asin")`, `item.get("sources", [])`, `item.get("image_url")`. -/
def mkResultItem (c : Candidate) : ResultItem :=
  { name := c.name.getD "Unknown"
    timestamp := c.timestamp.getD ""
    asin := c.asin
    sources := c.sources
    image_url := c.image_url }

/-- The found test of `build_result` (`steps.py` line 249):
`item.get("asin") or item.get("confidence", 0) >= 0.7`.
`item.get("asin")` is a truthiness test and the confidence default is `0`. -/
def found_decision (c : Candidate) : Bool :=
  optTruthy c.asin || decide ((7 / 10 : ℚ) ≤ c.confidence.getD 0)

/-- Final pipeline result (`steps.py` `PipelineResult`). -/
structure PipelineResult where
  found : List ResultItem
  lost : List ResultItem
deriving Repr, DecidableEq

/-- `build_result` (`steps.py` lines 234-254): one pass over the enriched
candidates, appending each derived `result_item` to `found` when the found
test holds and to `lost` otherwise, preserving order. -/
def build_result : List Candidate → PipelineResult
  | [] => { found := [], lost := [] }
  | c :: rest =>
      let r := build_result rest
      if found_decision c then
        { found := mkResultItem c :: r.found, lost := r.lost }
      else
        { found := r.found, lost := mkResultItem c :: r.lost }

/-- `build_result` is the order-preserving partition of the input by the found
test, with each side mapped through `mkResultItem`. -/
theorem build_result_eq (cs : List Candidate) :
    build_result cs =
      { found := (cs.filter found_decision).map mkResultItem
        lost := (cs.filter (fun c => !found_decision c)).map mkResultItem } := by
  induction cs with
  | nil => rfl
  | cons c rest ih =>
      by_cases h : found_decision c = true
      · simp [build_result, ih, List.filter_cons, h]
      · simp [build_result, ih, List.filter_cons, h]

/-- The found criterion as the code implements it, written from the spec
sentence as amended: identifier present and non-empty, or the confidence
value — defaulting to 0 when the key is absent — at least 0.7. -/
def found_criterion_amended (c : Candidate) : Bool :=
  (match c.asin with
   | some s => s != ""
   | none => false) || decide ((7 / 10 : ℚ) ≤ c.confidence.getD 0)

theorem found_decision_eq_amended :
    found_decision = found_criterion_amended := by
  funext c
  cases h : c.asin <;> simp [found_decision, found_criterion_amended, optTruthy, h]

theorem length_filter_partition {α : Type} (p : α → Bool) (l : List α) :
    (l.filter p).length + (l.filter (fun a => !p a)).length = l.length := by
  induction l with
  | nil => rfl
  | cons a l ih =>
      by_cases h : p a = true <;>
        simp [List.filter_cons, h, ← ih] <;> omega

/-- C1 counterexample: a candidate with no asin and no confidence key lands in
`lost`, not `found` (the confidence default in `build_result` is 0, not 1.0);
likewise a present-but-empty asin does not count as an identifier. -/
theorem C1_absent_confidence_lost :
    (build_result [{ : Candidate }]).found = [] ∧
    (build_result [{ : Candidate }]).lost.length = 1 ∧
    (build_result [{ name := some "X", asin := some "" : Candidate }]).found = [] := by
  refine ⟨?_, ?_, ?_⟩ <;>
    simp [build_result, found_decision, optTruthy, Option.getD] <;> norm_num

/-- C1 (amended): `build_result` places a candidate in `found` iff its asin is
present and non-empty or its confidence — defaulting to 0 when absent — is at
least 0.7; at exactly 0.7 the candidate is found, at 0.6999 it is lost, and an
identifier-less candidate without a confidence key is lost. -/
theorem C1_found_criterion :
    (∀ cs : List Candidate,
        (build_result cs).found =
          (cs.filter found_criterion_amended).map mkResultItem ∧
        (build_result cs).lost =
          (cs.filter (fun c => !found_criterion_amended c)).map mkResultItem) ∧
    (build_result [{ confidence := some (7 / 10) : Candidate }]).lost = [] ∧
    (build_result [{ confidence := some (7 / 10) : Candidate }]).found.length = 1 ∧
    (build_result [{ confidence := some (6999 / 10000) : Candidate }]).found = [] ∧
    (build_result [{ : Candidate }]).found = [] := by
  refine ⟨fun cs => ?_, ?_, ?_, ?_, ?_⟩
  · rw [build_result_eq, found_decision_eq_amended]
    exact ⟨rfl, rfl⟩
  all_goals
    simp [build_result, found_decision, optTruthy, Option.getD] <;> norm_num

/-- C4: `build_result` is a total and disjoint partition — the lengths of
`found` and `lost` sum to the number of input candidates, and the two lists
are exactly the images of the found-test partition of the input, so each
input candidate occurrence ends in exactly one of the two lists. -/
theorem C4_partition (cs : List Candidate) :
    (build_result cs).found.length + (build_result cs).lost.length = cs.length ∧
    (build_result cs).found = (cs.filter found_decision).map mkResultItem ∧
    (build_result cs).lost =
      (cs.filter (fun c => !found_decision c)).map mkResultItem := by
  rw [build_result_eq]
  refine ⟨?_, rfl, rfl⟩
  simp [length_filter_partition]

/-- C4 has universally quantified data but no propositional hypothesis; this
closed instance exercises it on a concrete two-candidate list. -/
theorem C4_partition_example :
    (build_result [{ asin := some "B00MOCK123" : Candidate }, { : Candidate }]).found.length = 1 ∧
    (build_result [{ asin := some "B00MOCK123" : Candidate }, { : Candidate }]).lost.length = 1 := by
  constructor <;>
    simp [build_result, found_decision, optTruthy, Option.getD] <;> norm_num

/-- C9 counterexample: a lost candidate whose name key is present but holds
the empty string keeps the empty string — `item.get("name", "Unknown")`
only substitutes when the key is absent. -/
theorem C9_empty_name_not_defaulted :
    (build_result [{ name := some "" : Candidate }]).found = [] ∧
    ((build_result [{ name := some "" : Candidate }]).lost.map ResultItem.name) = [""] := by
  constructor <;>
    simp [build_result, found_decision, optTruthy, mkResultItem, Option.getD] <;> norm_num

/-- C9 (amended): a lost candidate whose name key is absent gets the name
"Unknown" in the result (an empty-string name, by contrast, is preserved). -/
theorem C9_absent_name_defaults_unknown (cs : List Candidate) (c : Candidate)
    (hmem : c ∈ cs) (hlost : found_decision c = false) (hname : c.name = none) :
    (mkResultItem c).name = "Unknown" ∧ mkResultItem c ∈ (build_result cs).lost := by
  constructor
  · simp [mkResultItem, hname]
  · rw [build_result_eq]
    exact List.mem_map_of_mem _ (List.mem_filter.2 ⟨hmem, by simp [hlost]⟩)

theorem C9_absent_name_defaults_unknown_witness :
    (mkResultItem { : Candidate }).name = "Unknown" ∧
      mkResultItem { : Candidate } ∈ (build_result [{ : Candidate }]).lost :=
  C9_absent_name_defaults_unknown [{ : Candidate }] { : Candidate }
    (by simp)
    (by simp [found_decision, optTruthy, Option.getD])
    rfl

/-- A product entry returned by a vision provider: a dictionary with optional
`name` and `confidence` keys (`adapters.py` `VisionResult.products`). -/
structure VisionProduct where
  name : Option String := none
  confidence : Option ℚ := none
deriving Repr, DecidableEq

/-- `VisionResult` (`adapters.py` lines 28-33). -/
structure VisionResult where
  description : String
  products : List VisionProduct
deriving Repr, DecidableEq

/-- A vision provider as the refinement stage uses it: a function from
(image path, prompt) to a `VisionResult`. -/
abbrev VisionFun := String → String → VisionResult

/-- The prompt built in `detect_products_from_video` (`steps.py` lines
189-192); Python interpolates a missing name (`None`) as the text "None". -/
def visionPrompt (c : Candidate) : String :=
  "Identify the product \x27"
    ++ (match c.name with
        | some n => n
        | none => "None")
    ++ "\x27 in this frame. What is the exact product name and brand?"

/-- The unclear-candidate selection of `detect_products_from_video`
(`steps.py` lines 179-182): `not c.get("asin")` (truthiness) and
`c.get("confidence", 1.0) < 0.8`. -/
def unclear_selector (c : Candidate) : Bool :=
  !optTruthy c.asin && decide (c.confidence.getD 1 < (8 / 10 : ℚ))

/-- The per-candidate body of the refinement loop (`steps.py` lines 184-201):
ask the vision provider about the first frame; when it returns at least one
product, overwrite `name` (keeping the old name when the vision product has no
name key) and `confidence` (vision default 0.5), then append "video" to
`sources` when it is not already there.  An empty products list changes
nothing. -/
def refine_candidate (vision : VisionFun) (frame : String) (c : Candidate) :
    Candidate :=
  match (vision frame (visionPrompt c)).products with
  | [] => c
  | best :: _ =>
      let c1 := { c with
        name := match best.name with
                | some n => some n
                | none => c.name
        confidence := some (best.confidence.getD (1 / 2)) }
      if c1.sources.contains "video" then c1
      else { c1 with sources := c1.sources ++ ["video"] }

/-- `detect_products_from_video` (`steps.py` lines 170-203): a no-op when
`frames` is empty; otherwise each candidate passing the unclear test is
refined in place against the first frame and every other candidate is left
untouched. -/
def detect_products_from_video (vision : VisionFun) (frames : List String)
    (candidates : List Candidate) : List Candidate :=
  match frames with
  | [] => candidates
  | frame :: _ =>
      candidates.map fun c =>
        if unclear_selector c then refine_candidate vision frame c else c

theorem detect_video_length (vision : VisionFun) (frames : List String)
    (cs : List Candidate) :
    (detect_products_from_video vision frames cs).length = cs.length := by
  cases frames <;> simp [detect_products_from_video]

theorem refine_candidate_sources_mono (vision : VisionFun) (frame : String)
    (c : Candidate) (tag : String) (htag : tag ∈ c.sources) :
    tag ∈ (refine_candidate vision frame c).sources := by
  unfold refine_candidate
  split
  · exact htag
  · split <;> (by_cases hv : "video" ∈ c.sources <;> simp [hv, htag])

/-- The mock vision provider with its default canned product
(`adapters.py` lines 160-176). -/
def MockVisionProviderFun : VisionFun := fun _ _ =>
  { description := "Mock image analysis"
    products := [{ name := some "Mock Product", confidence := some (19 / 20) }] }

/-- C8: the refinement stage never removes an existing source tag — every tag
a candidate carries before the stage is still on the candidate at the same
position afterwards — and refining an "audio"-tagged candidate that the vision
provider identifies yields sources ["audio", "video"], not a replacement. -/
theorem C8_sources_monotone (vision : VisionFun) (frames : List String)
    (cs : List Candidate) (i : Nat) (hi : i < cs.length) (tag : String)
    (htag : tag ∈ (cs.get ⟨i, hi⟩).sources) :
    (tag ∈ ((detect_products_from_video vision frames cs).get
        ⟨i, by rw [detect_video_length]; exact hi⟩).sources) ∧
    ((detect_products_from_video MockVisionProviderFun ["frame0.jpg"]
        [{ name := some "Cam", sources := ["audio"], confidence := some (1 / 2) }]).map
      Candidate.sources = [["audio", "video"]]) := by
  constructor
  · cases frames with
    | nil => exact htag
    | cons frame rest =>
        simp only [detect_products_from_video, List.get_eq_getElem,
          List.getElem_map]
        by_cases h : unclear_selector cs[i] = true
        · simpa [h] using refine_candidate_sources_mono vision frame _ tag
            (by simpa using htag)
        · simpa [h] using htag
  · simp [detect_products_from_video, unclear_selector, optTruthy,
      refine_candidate, MockVisionProviderFun, Option.getD]
    norm_num

theorem C8_sources_monotone_witness :
    "audio" ∈ ((detect_products_from_video MockVisionProviderFun ["frame0.jpg"]
      [{ name := some "Cam", sources := ["audio"], confidence := some (1 / 2) }]).get
        ⟨0, by simp [detect_products_from_video]⟩).sources :=
  (C8_sources_monotone MockVisionProviderFun ["frame0.jpg"]
    [{ name := some "Cam", sources := ["audio"], confidence := some (1 / 2) }]
    0 (by simp) "audio" (by simp)).1

/-- C10: for a candidate selected for vision analysis (no truthy asin,
confidence below 0.8), a vision result with an empty products list leaves the
candidate exactly as it was — it is returned unchanged by the stage. -/
theorem C10_empty_vision_no_change (vision : VisionFun) (frame : String)
    (frames : List String) (cs : List Candidate) (c : Candidate) (hmem : c ∈ cs)
    (hsel : unclear_selector c = true)
    (hempty : (vision frame (visionPrompt c)).products = []) :
    refine_candidate vision frame c = c ∧
    c ∈ detect_products_from_video vision (frame :: frames) cs := by
  have hrefine : refine_candidate vision frame c = c := by
    unfold refine_candidate
    rw [hempty]
  refine ⟨hrefine, ?_⟩
  have : c = (fun c => if unclear_selector c then
      refine_candidate vision frame c else c) c := by
    simp [hsel, hrefine]
  rw [detect_products_from_video]
  exact this ▸ List.mem_map_of_mem _ hmem

/-- The all-empty vision double used to exercise C10. -/
def EmptyVisionFun : VisionFun := fun _ _ =>
  { description := "nothing", products := [] }

theorem C10_empty_vision_no_change_witness :
    refine_candidate EmptyVisionFun "frame0.jpg"
        { name := some "Cam", confidence := some (1 / 2) } =
      { name := some "Cam", confidence := some (1 / 2) } ∧
    ({ name := some "Cam", confidence := some (1 / 2) : Candidate } ∈
      detect_products_from_video EmptyVisionFun ["frame0.jpg"]
        [{ name := some "Cam", confidence := some (1 / 2) }]) :=
  C10_empty_vision_no_change EmptyVisionFun "frame0.jpg" []
    [{ name := some "Cam", confidence := some (1 / 2) }]
    { name := some "Cam", confidence := some (1 / 2) }
    (by simp)
    (by simp [unclear_selector, optTruthy, Option.getD]; norm_num)
    rfl

/-- `ProductSearchResult` (`adapters.py` lines 36-44). -/
structure ProductSearchResult where
  asin : String
  name : String
  image_url : Option String := none
  price : Option String := none
  url : Option String := none
deriving Repr, DecidableEq

/-- Python exceptions a provider call can raise into the pipeline. -/
inductive PipelineError
  | notImplementedError (msg : String)
  | providerError (msg : String)
deriving Repr, DecidableEq

/-- A product search provider (`adapters.py` `ProductSearchProvider`): both
operations may raise, modelled as `Except.error`. -/
structure ProductSearchProviderFuns where
  search : String → Except PipelineError (List ProductSearchResult)
  get_by_asin : String → Except PipelineError (Option ProductSearchResult)

/-- `MockProductSearchProvider` (`adapters.py` lines 444-461): pure canned
results, never raises. -/
def MockProductSearchProviderFuns : ProductSearchProviderFuns where
  search := fun query => .ok
    [{ asin := "B00MOCK123", name := "Mock Product: " ++ query,
       image_url := some "https://example.com/mock.jpg" }]
  get_by_asin := fun asin => .ok (some
    { asin := asin, name := "Mock Product " ++ asin,
      image_url := some "https://example.com/mock.jpg" })

/-- `AmazonProductSearchProvider` (`adapters.py` lines 464-490): both
operations raise `NotImplementedError`. -/
def AmazonProductSearchProviderFuns
    (_access_key _secret_key _partner_tag : String) :
    ProductSearchProviderFuns where
  search := fun _ => .error
    (.notImplementedError "Amazon Product Search not yet implemented")
  get_by_asin := fun _ => .error
    (.notImplementedError "Amazon Product Search not yet implemented")

/-- The search-by-name arm of the enrichment loop (`steps.py` lines 217-226):
when the candidate has a truthy name, search it and adopt the top result
(asin, image, url); no result leaves the candidate unchanged.  No handler
surrounds the provider call. -/
def enrich_by_name (p : ProductSearchProviderFuns) (c : Candidate) :
    Except PipelineError Candidate :=
  if c.name.getD "" != "" then
    match p.search (c.name.getD "") with
    | .error e => .error e
    | .ok [] => .ok c
    | .ok (best :: _) =>
        .ok { c with asin := some best.asin, image_url := best.image_url,
                     product_url := best.url }
  else .ok c

/-- The per-candidate body of `enrich_with_search` (`steps.py` lines
210-228): a truthy asin triggers a details lookup by asin, otherwise the
name is searched.  No handler surrounds either provider call. -/
def enrich_candidate (p : ProductSearchProviderFuns) (c : Candidate) :
    Except PipelineError Candidate :=
  match c.asin with
  | some asin =>
      if asin != "" then
        match p.get_by_asin asin with
        | .error e => .error e
        | .ok (some r) =>
            .ok { c with image_url := r.image_url, product_url := r.url }
        | .ok none => .ok c
      else enrich_by_name p c
  | none => enrich_by_name p c

/-- `enrich_with_search` (`steps.py` lines 206-231): the loop over the
candidates in order; a raise from any provider call propagates and aborts
the whole stage. -/
def enrich_with_search (p : ProductSearchProviderFuns) :
    List Candidate → Except PipelineError (List Candidate)
  | [] => .ok []
  | c :: rest =>
      match enrich_candidate p c with
      | .error e => .error e
      | .ok c2 =>
          match enrich_with_search p rest with
          | .error e => .error e
          | .ok rest2 => .ok (c2 :: rest2)

/-- C3: the code contradicts the claim.  `enrich_with_search` has no handler,
so the `NotImplementedError` raised by `AmazonProductSearchProvider.search`
on the first candidate propagates out of the enrichment stage and aborts it:
on this two-candidate list the stage returns the raised error, no candidate
(including the second) is enriched, and nothing is returned. -/
theorem C3_not_implemented_propagates :
    enrich_with_search (AmazonProductSearchProviderFuns "" "" "")
      [{ name := some "Camera", sources := ["audio"] },
       { name := some "Tripod", sources := ["audio"] }] =
    .error (.notImplementedError "Amazon Product Search not yet implemented") := by
  rfl

/-- The per-product marking of `detect_products_from_audio` (`steps.py`
lines 160-164): ensure a sources list exists and append "audio" when it is
not already present. -/
def mark_audio (c : Candidate) : Candidate :=
  if c.sources.contains "audio" then c
  else { c with sources := c.sources ++ ["audio"] }

/-- `detect_products_from_audio` (`steps.py` lines 156-167) applied to the
product list the LLM provider returned. -/
def detect_products_from_audio (products : List Candidate) : List Candidate :=
  products.map mark_audio

/-- `ctx.youtube_url.rsplit("/", 1)[-1]`: the part after the last slash, or
the whole string when it has no slash. -/
def urlLastComponent (url : String) : String :=
  ((url.splitOn "/").getLast?).getD url

/-- `download_video` with `PIPELINE_USE_REAL_DOWNLOAD` off (`steps.py`
lines 64-68): a deterministic synthetic path. -/
def download_video_path (url : String) : String :=
  "/tmp/downloads/" ++ urlLastComponent url ++ ".mp4"

/-- `extract_audio` with `PIPELINE_USE_REAL_AUDIO` off (`steps.py` lines
97-99): `Path(video_path).with_suffix(".wav")`; the stubbed download path
always ends in ".mp4", so the suffix swap drops those four characters. -/
def extract_audio_path (video_path : String) : String :=
  video_path.dropRight 4 ++ ".wav"

/-- `MockTranscriptionProvider` default canned text (`adapters.py` lines
61-68). -/
def MockTranscriptionText : String := "This is a mock transcript."

/-- `MockLLMProvider` default canned products (`adapters.py` lines 315-333). -/
def MockLLMDefaultProducts : List Candidate :=
  [{ name := some "Mock Tripod", timestamp := some "00:42",
     sources := ["audio"], asin := some "B00MOCK123" }]

/-- `run_pipeline` (`steps.py` lines 262-286) under the mock provider set
with the real-download and real-audio flags off.  `MockLLMProvider` returns
its stored list — the very dictionaries the later stages mutate in place —
so the provider state after a run is that run's enriched candidate list; the
function threads this state explicitly and returns it beside the result. -/
def run_pipeline_mock (youtube_url : String) (llmState : List Candidate) :
    Except PipelineError (PipelineResult × List Candidate) :=
  let video_path := download_video_path youtube_url
  let _audio_path := extract_audio_path video_path
  let _transcript := MockTranscriptionText
  let frames : List String := []
  let candidates := detect_products_from_audio llmState
  let candidates2 := detect_products_from_video MockVisionProviderFun frames candidates
  match enrich_with_search MockProductSearchProviderFuns candidates2 with
  | .error e => .error e
  | .ok enriched => .ok (build_result enriched, enriched)

/-- Derived behaviour of the search-by-name arm under the mock search
provider (proved below, `enrich_candidate_mock`). -/
def mockEnrichByName (c : Candidate) : Candidate :=
  if c.name.getD "" != "" then
    { c with asin := some "B00MOCK123",
             image_url := some "https://example.com/mock.jpg",
             product_url := none }
  else c

/-- Derived behaviour of one enrichment step under the mock search provider
(proved below, `enrich_candidate_mock`). -/
def mockEnrichStep (c : Candidate) : Candidate :=
  match c.asin with
  | some asin =>
      if asin != "" then
        { c with image_url := some "https://example.com/mock.jpg",
                 product_url := none }
      else mockEnrichByName c
  | none => mockEnrichByName c

theorem enrich_candidate_mock (c : Candidate) :
    enrich_candidate MockProductSearchProviderFuns c = .ok (mockEnrichStep c) := by
  unfold enrich_candidate mockEnrichStep
  cases hc : c.asin with
  | none =>
      simp only
      unfold enrich_by_name mockEnrichByName MockProductSearchProviderFuns
      split <;> rfl
  | some asin =>
      simp only
      split
      · rfl
      · unfold enrich_by_name mockEnrichByName MockProductSearchProviderFuns
        split <;> rfl

theorem enrich_with_search_mock (cs : List Candidate) :
    enrich_with_search MockProductSearchProviderFuns cs =
      .ok (cs.map mockEnrichStep) := by
  induction cs with
  | nil => rfl
  | cons c rest ih =>
      simp [enrich_with_search, enrich_candidate_mock, ih]

/-- One full candidate transformation of the mock pipeline: audio marking
followed by mock enrichment (vision is skipped because `extract_frames`
always yields an empty frame list). -/
def mock_process (c : Candidate) : Candidate :=
  mockEnrichStep (mark_audio c)

theorem mark_audio_mem (c : Candidate) : "audio" ∈ (mark_audio c).sources := by
  unfold mark_audio
  split
  · next h => simpa using h
  · simp

theorem mark_audio_of_mem (c : Candidate) (h : "audio" ∈ c.sources) :
    mark_audio c = c := by
  unfold mark_audio
  simp [h]

theorem mockEnrichStep_sources (c : Candidate) :
    (mockEnrichStep c).sources = c.sources := by
  unfold mockEnrichStep mockEnrichByName
  cases hc : c.asin <;> simp only <;> split <;> try rfl
  all_goals split <;> rfl

theorem mockEnrichStep_idem (c : Candidate) :
    mockEnrichStep (mockEnrichStep c) = mockEnrichStep c := by
  unfold mockEnrichStep mockEnrichByName
  cases hc : c.asin with
  | none =>
      simp only
      by_cases hn : (c.name.getD "" != "") = true <;> simp [hn, hc]
  | some asin =>
      simp only
      by_cases ha : (asin != "") = true
      · simp [ha, hc]
      · by_cases hn : (c.name.getD "" != "") = true <;> simp [ha, hn, hc]

theorem mock_process_idem (c : Candidate) :
    mock_process (mock_process c) = mock_process c := by
  unfold mock_process
  rw [mark_audio_of_mem _ (by rw [mockEnrichStep_sources]; exact mark_audio_mem _),
    mockEnrichStep_idem]

theorem run_pipeline_mock_eq (url : String) (s : List Candidate) :
    run_pipeline_mock url s =
      .ok (build_result (s.map mock_process), s.map mock_process) := by
  unfold run_pipeline_mock
  simp only [detect_products_from_video, detect_products_from_audio,
    enrich_with_search_mock, List.map_map]
  rfl

/-- C5: running the mock pipeline twice — the second run starting from the
mock LLM provider state that the first run mutated in place — yields the same
`PipelineResult`, agreeing on every field of every found and lost item (they
are equal as values). -/
theorem C5_mock_determinism (youtube_url : String) (llmState : List Candidate) :
    ∃ r s1 s2,
      run_pipeline_mock youtube_url llmState = .ok (r, s1) ∧
      run_pipeline_mock youtube_url s1 = .ok (r, s2) := by
  refine ⟨build_result (llmState.map mock_process), llmState.map mock_process,
    llmState.map mock_process, run_pipeline_mock_eq _ _, ?_⟩
  rw [run_pipeline_mock_eq]
  have hmap : (llmState.map mock_process).map mock_process =
      llmState.map mock_process := by
    rw [List.map_map]
    exact List.map_congr_left fun c _ => mock_process_idem c
  rw [hmap]

/-!
Durable rows (`video/models.py`) and the persistence step (`client.py`).
Django querysets are modelled as insertion-ordered lists of rows; product
primary keys are allocated from a counter. -/

/-- `Product` (`video/models.py` lines 33-39): `name` is free text and not
unique. -/
structure ProductRow where
  id : Nat
  name : String
deriving Repr, DecidableEq

/-- `ProductMarket` (`video/models.py` lines 48-59), unique together on
`(product, market, market_product_id)`. -/
structure ProductMarketRow where
  productId : Nat
  market : String
  market_product_id : String
deriving Repr, DecidableEq

/-- `VideoProduct` (`video/models.py` lines 69-91). -/
structure VideoProductRow where
  videoId : Nat
  productId : Option Nat
  name : String
  timestamp : String
  source : String
  is_reviewed : Bool
  is_found : Bool
  sort_order : Nat
deriving Repr, DecidableEq

/-- The catalog tables touched by the pipeline. -/
structure DB where
  products : List ProductRow
  product_markets : List ProductMarketRow
  video_products : List VideoProductRow
  next_product_id : Nat
deriving Repr, DecidableEq

def DB.empty : DB :=
  { products := [], product_markets := [], video_products := []
    next_product_id := 0 }

/-- `Product.objects.get_or_create(name=...)` (`client.py` lines 160-162 and
166-167): matching is by exact name equality against existing rows; a miss
appends a fresh row. -/
def product_get_or_create (db : DB) (name : String) : DB × ProductRow :=
  match db.products.find? (fun p => p.name == name) with
  | some p => (db, p)
  | none =>
      let p : ProductRow := { id := db.next_product_id, name := name }
      ({ db with products := db.products ++ [p]
                 next_product_id := db.next_product_id + 1 }, p)

/-- `ProductMarket.objects.get_or_create(product=..., market=Market.AMAZON,
market_product_id=asin)` (`client.py` lines 163-165). -/
def product_market_get_or_create (db : DB) (productId : Nat) (market : String)
    (market_product_id : String) : DB × ProductMarketRow :=
  match db.product_markets.find? (fun m =>
      m.productId == productId && m.market == market
        && m.market_product_id == market_product_id) with
  | some m => (db, m)
  | none =>
      let m : ProductMarketRow :=
        { productId := productId, market := market
          market_product_id := market_product_id }
      ({ db with product_markets := db.product_markets ++ [m] }, m)

/-- `_determine_source` (`client.py` lines 141-152). -/
def determine_source (sources : List String) : String :=
  if sources.isEmpty then "audio"
  else if sources.contains "video" then "video"
  else if sources.contains "audio" then "audio"
  else if sources.contains "subtitle" then "subtitle"
  else "audio"

/-- The catalog-upsert part of the found-items loop (`client.py` lines
158-167): a truthy asin upserts a product by name then a market listing by
`(product, "amazon", asin)`; otherwise a truthy name upserts the product
alone; otherwise no catalog row. -/
def persist_found_catalog (db : DB) (item : ResultItem) :
    DB × Option ProductRow :=
  match item.asin with
  | some asin =>
      if asin != "" then
        let (d, p) := product_get_or_create db item.name
        let (d2, _) := product_market_get_or_create d p.id "amazon" asin
        (d2, some p)
      else if item.name != "" then
        let (d, p) := product_get_or_create db item.name
        (d, some p)
      else (db, none)
  | none =>
      if item.name != "" then
        let (d, p) := product_get_or_create db item.name
        (d, some p)
      else (db, none)

/-- One iteration of the found-items loop of `_persist_products`
(`client.py` lines 157-179): catalog upsert, then one `VideoProduct`
created with the running index as `sort_order` and `is_found=True`. -/
def persist_found_item (db : DB) (videoId : Nat) (index : Nat)
    (item : ResultItem) : DB :=
  let (db1, productOpt) := persist_found_catalog db item
  let row : VideoProductRow :=
    { videoId := videoId
      productId := productOpt.map ProductRow.id
      name := item.name
      timestamp := item.timestamp
      source := determine_source item.sources
      is_reviewed := false
      is_found := true
      sort_order := index }
  { db1 with video_products := db1.video_products ++ [row] }

/-- One iteration of the lost-items loop of `_persist_products`
(`client.py` lines 182-192): no catalog row, `is_found=False`, the index
continuing where the found loop stopped. -/
def persist_lost_item (db : DB) (videoId : Nat) (index : Nat)
    (item : ResultItem) : DB :=
  let row : VideoProductRow :=
    { videoId := videoId
      productId := none
      name := item.name
      timestamp := item.timestamp
      source := determine_source item.sources
      is_reviewed := false
      is_found := false
      sort_order := index }
  { db with video_products := db.video_products ++ [row] }

/-- `_persist_products` (`client.py` lines 155-192): found items enumerated
from 0 in list order, lost items enumerated in list order starting at
`len(found)`. -/
def persist_products (db : DB) (videoId : Nat) (result : PipelineResult) :
    DB :=
  let db1 := result.found.enum.foldl
    (fun d p => persist_found_item d videoId p.1 p.2) db
  (result.lost.enumFrom result.found.length).foldl
    (fun d p => persist_lost_item d videoId p.1 p.2) db1

theorem product_get_or_create_vp (db : DB) (name : String) :
    (product_get_or_create db name).1.video_products = db.video_products := by
  unfold product_get_or_create
  split <;> rfl

theorem persist_found_catalog_vp (db : DB) (item : ResultItem) :
    (persist_found_catalog db item).1.video_products = db.video_products := by
  unfold persist_found_catalog product_get_or_create product_market_get_or_create
  cases item.asin <;> simp only [] <;> repeat' split
  all_goals rfl

/-- The observable shape of an association row: sort order, found flag,
display name. -/
def vpShape (r : VideoProductRow) : Nat × Bool × String :=
  (r.sort_order, r.is_found, r.name)

theorem range_zero_append (a b : Nat) :
    List.range' 0 a ++ List.range' a b = List.range' 0 (a + b) := by
  have h := List.range'_append 0 a b 1
  simpa [Nat.add_comm b a] using h

theorem persist_found_item_append (db : DB) (v i : Nat) (item : ResultItem) :
    ∃ row, (persist_found_item db v i item).video_products
        = db.video_products ++ [row]
      ∧ vpShape row = (i, true, item.name) := by
  unfold persist_found_item
  rcases hpc : persist_found_catalog db item with ⟨db1, popt⟩
  have h1 : db1.video_products = db.video_products := by
    have := persist_found_catalog_vp db item
    rw [hpc] at this
    exact this
  refine ⟨{ videoId := v, productId := popt.map ProductRow.id
            name := item.name, timestamp := item.timestamp
            source := determine_source item.sources
            is_reviewed := false, is_found := true
            sort_order := i }, ?_, rfl⟩
  simp [h1]

theorem persist_lost_item_append (db : DB) (v i : Nat) (item : ResultItem) :
    ∃ row, (persist_lost_item db v i item).video_products
        = db.video_products ++ [row]
      ∧ vpShape row = (i, false, item.name) :=
  ⟨_, rfl, rfl⟩

theorem foldl_found_append (v : Nat) (items : List ResultItem) :
    ∀ (n : Nat) (db : DB),
    ∃ rows,
      ((items.enumFrom n).foldl
          (fun d p => persist_found_item d v p.1 p.2) db).video_products
        = db.video_products ++ rows
      ∧ rows.map vpShape
          = (items.enumFrom n).map (fun p => (p.1, true, p.2.name)) := by
  induction items with
  | nil => exact fun n db => ⟨[], by simp, by simp⟩
  | cons it rest ih =>
      intro n db
      obtain ⟨row, hrow, hshape⟩ := persist_found_item_append db v n it
      obtain ⟨rows, hrows, hshapes⟩ := ih (n + 1) (persist_found_item db v n it)
      refine ⟨row :: rows, ?_, ?_⟩
      · simp [List.enumFrom_cons, hrows, hrow]
      · simp [List.enumFrom_cons, hshape, hshapes]

theorem foldl_lost_append (v : Nat) (items : List ResultItem) :
    ∀ (n : Nat) (db : DB),
    ∃ rows,
      ((items.enumFrom n).foldl
          (fun d p => persist_lost_item d v p.1 p.2) db).video_products
        = db.video_products ++ rows
      ∧ rows.map vpShape
          = (items.enumFrom n).map (fun p => (p.1, false, p.2.name)) := by
  induction items with
  | nil => exact fun n db => ⟨[], by simp, by simp⟩
  | cons it rest ih =>
      intro n db
      obtain ⟨row, hrow, hshape⟩ := persist_lost_item_append db v n it
      obtain ⟨rows, hrows, hshapes⟩ := ih (n + 1) (persist_lost_item db v n it)
      refine ⟨row :: rows, ?_, ?_⟩
      · simp [List.enumFrom_cons, hrows, hrow]
      · simp [List.enumFrom_cons, hshape, hshapes]

theorem persist_products_rows (db : DB) (v : Nat) (r : PipelineResult) :
    ∃ rows, (persist_products db v r).video_products
        = db.video_products ++ rows
      ∧ rows.map vpShape
          = r.found.enum.map (fun p => (p.1, true, p.2.name))
            ++ (r.lost.enumFrom r.found.length).map
                (fun p => (p.1, false, p.2.name)) := by
  obtain ⟨rows1, h1, hs1⟩ := foldl_found_append v r.found 0 db
  obtain ⟨rows2, h2, hs2⟩ := foldl_lost_append v r.lost r.found.length
    ((r.found.enumFrom 0).foldl (fun d p => persist_found_item d v p.1 p.2) db)
  refine ⟨rows1 ++ rows2, ?_, ?_⟩
  · show ((r.lost.enumFrom r.found.length).foldl
        (fun d p => persist_lost_item d v p.1 p.2)
        ((r.found.enum).foldl (fun d p => persist_found_item d v p.1 p.2) db)).video_products
      = db.video_products ++ (rows1 ++ rows2)
    rw [show r.found.enum = r.found.enumFrom 0 from rfl, h2, h1,
      List.append_assoc]
  · rw [show r.found.enum = r.found.enumFrom 0 from rfl]
    simp [hs1, hs2]

/-- C7: persistence appends exactly one association row per result item —
found items first in list order, then lost items in list order — and
`sort_order` runs continuously 0, 1, … across the concatenation: the found
rows get 0..len(found)-1 and the lost rows continue from len(found). -/
theorem C7_sort_order_continuous (db : DB) (videoId : Nat)
    (r : PipelineResult) :
    ∃ rows,
      (persist_products db videoId r).video_products
          = db.video_products ++ rows ∧
      rows.length = r.found.length + r.lost.length ∧
      rows.map VideoProductRow.sort_order
          = List.range (r.found.length + r.lost.length) ∧
      rows.map vpShape
          = r.found.enum.map (fun p => (p.1, true, p.2.name))
            ++ (r.lost.enumFrom r.found.length).map
                (fun p => (p.1, false, p.2.name)) := by
  obtain ⟨rows, h, hshape⟩ := persist_products_rows db videoId r
  refine ⟨rows, h, ?_, ?_, hshape⟩
  · have := congrArg List.length hshape
    simpa using this
  · have hfst : rows.map VideoProductRow.sort_order
        = (rows.map vpShape).map Prod.fst := by
      rw [List.map_map]
      rfl
    rw [hfst, hshape, List.map_append, List.map_map, List.map_map]
    have hf : r.found.enum.map
          (Prod.fst ∘ fun p : Nat × ResultItem => (p.1, true, p.2.name))
        = r.found.enum.map Prod.fst :=
      List.map_congr_left fun p _ => rfl
    have hl : (r.lost.enumFrom r.found.length).map
          (Prod.fst ∘ fun p : Nat × ResultItem => (p.1, false, p.2.name))
        = (r.lost.enumFrom r.found.length).map Prod.fst :=
      List.map_congr_left fun p _ => rfl
    rw [hf, hl, List.enum_map_fst, List.enumFrom_map_fst,
      List.range_eq_range' r.found.length, List.range_eq_range']
    exact range_zero_append r.found.length r.lost.length

/-- C6: running the identifier-based upsert path of `_persist_products`
twice with the same `(name, asin)` pair, starting from an empty catalog,
leaves exactly one `Product` row and exactly one `ProductMarket` row — the
second call resolves both via get-or-create instead of duplicating. -/
theorem C6_idempotent_upsert (name asin : String)
    (h : (asin != "") = true) :
    (persist_found_item (persist_found_item DB.empty 1 0
        { name := name, timestamp := "", asin := some asin
          sources := ["audio"], image_url := none }) 1 1
        { name := name, timestamp := "", asin := some asin
          sources := ["audio"], image_url := none }).products
      = [{ id := 0, name := name }] ∧
    (persist_found_item (persist_found_item DB.empty 1 0
        { name := name, timestamp := "", asin := some asin
          sources := ["audio"], image_url := none }) 1 1
        { name := name, timestamp := "", asin := some asin
          sources := ["audio"], image_url := none }).product_markets
      = [{ productId := 0, market := "amazon", market_product_id := asin }] := by
  constructor <;>
    simp [persist_found_item, persist_found_catalog, product_get_or_create,
      product_market_get_or_create, DB.empty, h, List.find?]

theorem C6_idempotent_upsert_witness :
    (persist_found_item (persist_found_item DB.empty 1 0
        { name := "Mock Tripod", timestamp := "", asin := some "B00MOCK123"
          sources := ["audio"], image_url := none }) 1 1
        { name := "Mock Tripod", timestamp := "", asin := some "B00MOCK123"
          sources := ["audio"], image_url := none }).products
      = [{ id := 0, name := "Mock Tripod" }] ∧
    (persist_found_item (persist_found_item DB.empty 1 0
        { name := "Mock Tripod", timestamp := "", asin := some "B00MOCK123"
          sources := ["audio"], image_url := none }) 1 1
        { name := "Mock Tripod", timestamp := "", asin := some "B00MOCK123"
          sources := ["audio"], image_url := none }).product_markets
      = [{ productId := 0, market := "amazon"
           market_product_id := "B00MOCK123" }] :=
  C6_idempotent_upsert "Mock Tripod" "B00MOCK123" (by decide)

/-- `VideoStatus` as declared in `video/models.py` lines 9-12. -/
inductive VideoStatus
  | processing
  | completed
  | failed
deriving Repr, DecidableEq

/-- The summary dictionary `_run_and_persist` returns on success. -/
structure RunSummary where
  status : VideoStatus
  found : Nat
deriving Repr, DecidableEq

/-- `_run_and_persist` (`client.py` lines 119-138), with the pipeline run
abstracted by its outcome (a result or a raised error).  The first committed
write is always `processing` (its own transaction, before the `try` block);
on a result the products are persisted and `completed` committed; on a raise
`failed` is committed and the same error re-raised.  The returned triple is
(database, committed status writes in order, returned summary or raised
error). -/
def run_and_persist (db : DB) (videoId : Nat)
    (runOutcome : Except PipelineError PipelineResult) :
    DB × List VideoStatus × Except PipelineError RunSummary :=
  match runOutcome with
  | .ok result =>
      let db2 := persist_products db videoId result
      (db2, [.processing, .completed],
        .ok { status := .completed, found := result.found.length })
  | .error e => (db, [.processing, .failed], .error e)

/-- C2: the first committed status is `processing`; the last committed status
is terminal (never `processing`); on a raising run it is `failed` and the
identical error is re-raised; on a successful run it is `completed`, the
results are persisted and the summary carries the found count. -/
theorem C2_status_terminal (db : DB) (videoId : Nat)
    (outcome : Except PipelineError PipelineResult) :
    ((run_and_persist db videoId outcome).2.1.head? = some .processing) ∧
    ((run_and_persist db videoId outcome).2.1.getLast? = some .completed ∨
      (run_and_persist db videoId outcome).2.1.getLast? = some .failed) ∧
    (match outcome with
     | .ok r =>
         (run_and_persist db videoId outcome).2.1.getLast? = some .completed ∧
         (run_and_persist db videoId outcome).2.2 =
           .ok { status := .completed, found := r.found.length } ∧
         (run_and_persist db videoId outcome).1 =
           persist_products db videoId r
     | .error e =>
         (run_and_persist db videoId outcome).2.1.getLast? = some .failed ∧
         (run_and_persist db videoId outcome).2.2 = .error e) := by
  cases outcome <;> simp [run_and_persist]

end LinkInTheVideo
